import Mathlib

/-!
Verification development for the jesus-walks-napa checkout/shipping core.

Shallow embedding of the TypeScript sources:
* `src/shared/schema.ts` — data model (ShippingAddress, Order, OrderItem);
* `src/server/services/shipping.ts` — `ShippingService.validateAddress`,
  `ShippingService.getShippingRates`, module-init key checks;
* `src/server/routes.ts` — `/api/create-payment-intent` route and the
  module-init Stripe key check;
* `src/unnamed/part_001` — `MemStorage` order/orderItem operations;
* `src/unnamed/part_002` — checkout page (`Checkout` payment-intent effect
  and `CheckoutForm` order-summary total).

Decimals are embedded as exact rationals (`ℚ`); external calls (geocoder,
EasyPost, Stripe) are parameters ("oracles") supplying the outcome the
service would observe, including thrown exceptions as `Except.error`.
Timestamps are abstract `Nat` ticks.
-/

namespace JWN

/-- JavaScript `a || b` on strings: `""` is falsy, so it falls back to `b`. -/
def jsOrStr (a b : String) : String := if a = "" then b else a

/-- JavaScript `a || b` where `a` is an optional string (`undefined` → `none`);
`undefined` and `""` are both falsy. -/
def jsOrOptStr (a : Option String) (b : String) : String :=
  match a with
  | none => b
  | some s => if s = "" then b else s

/-- JavaScript `a || 0` on an optional number (used for `rate.delivery_days || 0`):
`undefined` and `0` are falsy, both give `0`. -/
def jsOrNat (a : Option Nat) : Nat :=
  match a with
  | none => 0
  | some n => if n = 0 then 0 else n

/-- JavaScript `a || 0` on a number (used for `selectedRate?.rate || 0`). -/
def jsOrZero (a : ℚ) : ℚ := if a = 0 then 0 else a

/-- JavaScript `Math.round`: round half toward positive infinity. Per the
ECMAScript spec this acts on the exact mathematical value of its (binary64)
argument. -/
def jsRound (q : ℚ) : ℤ := ⌊q + 1/2⌋

/-- Round a rational to the nearest integer, ties to even — the IEEE-754
default rounding used when a real result is fitted to a binary64. -/
def roundHalfEven (q : ℚ) : ℤ :=
  let f := ⌊q⌋
  if q - f < 1/2 then f
  else if 1/2 < q - f then f + 1
  else if f % 2 = 0 then f else f + 1

/-- Binary64 rounding of a positive rational in the normal range: scale
into the binade of `q` so the 53-bit significand is an integer, round to
nearest even, scale back. -/
def flPos (q : ℚ) : ℚ :=
  (roundHalfEven (q * 2 ^ ((52 : ℤ) - Int.log 2 q)) : ℚ) /
    2 ^ ((52 : ℤ) - Int.log 2 q)

/-- Rounding of an exact rational to the nearest IEEE-754 binary64 value:
the value JavaScript number literals, JSON parsing and each arithmetic
operation produce. Overflow and subnormals are not modelled; they cannot
arise for currency amounts. -/
def fl (q : ℚ) : ℚ :=
  if q = 0 then 0 else if 0 < q then flPos q else -flPos (-q)

/-- `shippingAddressSchema` of `src/shared/schema.ts`: the nine address fields.
`address2` is the one optional field. -/
structure ShippingAddress where
  firstName : String
  lastName : String
  address1 : String
  address2 : Option String
  city : String
  state : String
  postalCode : String
  country : String
  phone : String
deriving DecidableEq, Repr

/-- `ValidatedAddress` of `src/server/services/shipping.ts`: it extends
`ShippingAddress` (the TS returns spread `...address`), adding `isValid`,
an optional `normalizedAddress` and `messages`. The inherited fields are
kept as the `base` component. -/
structure ValidatedAddress where
  base : ShippingAddress
  isValid : Bool
  normalizedAddress : Option ShippingAddress
  messages : List String
deriving DecidableEq, Repr

/-- One geocoder candidate (`geocoder.geocode` result entry); the service only
inspects the result's length, so candidates carry no data here. -/
structure GeoCandidate where
deriving DecidableEq, Repr

/-- The record EasyPost's `Address.create` + `verify` yields: the fields
`validateAddress` reads off `verifiedAddress`. `street2` and the delivery
details are optional in the EasyPost response. -/
structure VerifiedRecord where
  street1 : String
  street2 : Option String
  city : String
  state : String
  zip : String
  country : String
  phone : String
  deliveryDetails : Option (List String)
deriving DecidableEq, Repr

/-- Outcomes of the two external calls `validateAddress` makes, in order:
the geocode call and the EasyPost create+verify step. `Except.error e`
models a thrown exception whose `.message` is `e` (a throw with no usable
message is modelled as `""`, matching the `error.message || ...` fallback). -/
structure AddressOracle where
  geocode : Except String (List GeoCandidate)
  verify : Except String VerifiedRecord
deriving Repr

/-- `ShippingService.validateAddress` (`src/server/services/shipping.ts:31-89`).
Control flow of the source: inside one `try`, geocode; a thrown geocode error
falls to the `catch`; zero candidates return early with "Address could not be
found"; otherwise EasyPost create+verify (a throw again falls to the `catch`),
and on success the normalized address is assembled from the verified record. -/
def validateAddress (address : ShippingAddress) (ext : AddressOracle) :
    ValidatedAddress :=
  match ext.geocode with
  | .error e =>
    { base := address, isValid := false, normalizedAddress := none
      messages := [jsOrStr e "Address validation failed"] }
  | .ok geocodeResult =>
    if geocodeResult.length = 0 then
      { base := address, isValid := false, normalizedAddress := none
        messages := ["Address could not be found"] }
    else
      match ext.verify with
      | .error e =>
        { base := address, isValid := false, normalizedAddress := none
          messages := [jsOrStr e "Address validation failed"] }
      | .ok verifiedAddress =>
        { base := address
          isValid := true
          normalizedAddress := some
            { firstName := address.firstName
              lastName := address.lastName
              address1 := verifiedAddress.street1
              address2 := some (jsOrOptStr verifiedAddress.street2 "")
              city := verifiedAddress.city
              state := verifiedAddress.state
              postalCode := verifiedAddress.zip
              country := verifiedAddress.country
              phone := verifiedAddress.phone }
          messages := verifiedAddress.deliveryDetails.getD [] }

/-- Whether `validateAddress` reaches the EasyPost carrier-verification step
(`easypost.Address.create` at `shipping.ts:51`): only after a geocode call
that returned a non-empty candidate list. -/
def carrierVerifyInvoked (ext : AddressOracle) : Bool :=
  match ext.geocode with
  | .error _ => false
  | .ok geocodeResult => geocodeResult.length ≠ 0

/-- `ShippingRate` of `src/server/services/shipping.ts:22-28`. -/
structure ShippingRate where
  carrier : String
  service : String
  rate : ℚ
  estimatedDays : Nat
  trackingAvailable : Bool
deriving DecidableEq, Repr

/-- One rate option of the EasyPost shipment response (`shipment.rates`
entry): the fields `getShippingRates` reads. `rate` is the decimal value
the source obtains via `parseFloat(rate.rate)`; `delivery_days` may be
absent. -/
structure RateOption where
  carrier : String
  service : String
  rate : ℚ
  delivery_days : Option Nat
deriving DecidableEq, Repr

/-- Parcel dimensions passed to `getShippingRates`. -/
structure ParcelDetails where
  weight : ℚ
  length : ℚ
  width : ℚ
  height : ℚ
deriving DecidableEq, Repr

/-- `ShippingService.getShippingRates` (`shipping.ts:91-141`): the
`easypost.Shipment.create` call is the oracle (its thrown error message on
failure, its `rates` list on success). On success each option is mapped to a
`ShippingRate`; on failure the whole call throws
`Failed to get shipping rates: ...`. The two addresses and the parcel only
feed the outbound request, so the result depends on them only through the
oracle. -/
def getShippingRates (_fromAddress _toAddress : ShippingAddress)
    (_parcelDetails : ParcelDetails)
    (shipment : Except String (List RateOption)) :
    Except String (List ShippingRate) :=
  match shipment with
  | .error e => .error ("Failed to get shipping rates: " ++ e)
  | .ok rates =>
    .ok (rates.map fun rate =>
      { carrier := rate.carrier
        service := rate.service
        rate := rate.rate
        estimatedDays := jsOrNat rate.delivery_days
        trackingAvailable := true })

/-! ## `/api/create-payment-intent` (`src/server/routes.ts:375-400`) -/

/-- Response of the `/api/create-payment-intent` route:
`ok` carries the returned `clientSecret` (HTTP 200);
`invalidAmount` is the 400 `"Invalid amount"` response;
`processorError` is the 500 response on a Stripe failure. -/
inductive IntentResponse where
  | ok (clientSecret : String)
  | invalidAmount
  | processorError (message : String)
deriving DecidableEq, Repr

/-- The `/api/create-payment-intent` handler (`routes.ts:375-400`). The
request body's `amount` is a JavaScript number (major units, dollars), so
an already-rounded binary64 value; callers pass `fl` of the decimal they
mean. The route rejects `!amount || amount <= 0` with 400, otherwise calls
`stripe.paymentIntents.create` with `Math.round(amount * 100)` cents —
where `amount * 100` is binary64 multiplication, i.e. `fl` of the exact
product, and `Math.round` then acts on that double's exact value.
`processor` is the Stripe oracle: given the cents amount, it yields the
intent's `client_secret` or a thrown error message. The second component
records the cents amount actually submitted to Stripe (`none` when the
route never called Stripe). -/
def createPaymentIntentRoute (amount : ℚ)
    (processor : ℤ → Except String String) :
    IntentResponse × Option ℤ :=
  if amount = 0 ∨ amount ≤ 0 then
    (.invalidAmount, none)
  else
    let cents : ℤ := jsRound (fl (amount * 100))
    match processor cents with
    | .ok clientSecret => (.ok clientSecret, some cents)
    | .error e => (.processorError e, some cents)

/-! ## Checkout page (`src/unnamed/part_002`) -/

/-- One cart line item as held by `useCart` (the checkout page only uses the
cart's `items` list for its length and its `total`). -/
structure CartItem where
  productId : Nat
  quantity : Nat
  price : ℚ
deriving DecidableEq, Repr

/-- The state the `Checkout`/`CheckoutForm` pair renders from: the cart
(`items`, `total` = cart subtotal from `useCart`) and `CheckoutForm`'s
locally selected shipping rate. -/
structure CheckoutState where
  items : List CartItem
  total : ℚ
  selectedRate : Option ShippingRate
deriving DecidableEq, Repr

/-- The order-summary / pay-button total of `CheckoutForm`
(`part_002:255-268` and the button label at `part_002:281`):
`total + (selectedRate?.rate || 0)`. -/
def computeTotal (cartSubtotal : ℚ) (selectedRate : Option ShippingRate) : ℚ :=
  cartSubtotal + (match selectedRate with
    | some rate => jsOrZero rate.rate
    | none => 0)

/-- The amount the `Checkout` component's `useEffect` (`part_002:298-307`)
posts to `/api/create-payment-intent`: `{ amount: total }`, guarded by
`items.length > 0`. The effect's dependency array is `[total, items]`;
`selectedRate` is local to the inner `CheckoutForm` and is not read here,
which the definition shows by projecting only `items` and `total`. -/
def checkoutIntentEffectAmount (s : CheckoutState) : Option ℚ :=
  if s.items.length > 0 then some s.total else none

/-- Cents amount the checkout page's effect submits to Stripe: the effect's
posted amount run through the `/api/create-payment-intent` route. -/
def checkoutIntentSubmittedCents (s : CheckoutState)
    (processor : ℤ → Except String String) : Option ℤ :=
  match checkoutIntentEffectAmount s with
  | none => none
  | some amount => (createPaymentIntentRoute amount processor).2

/-! ## `MemStorage` order operations (`src/unnamed/part_001`) -/

/-- `Order` row (`orders` table, `src/shared/schema.ts`): id, userId, status
(`'pending' | 'paid' | 'shipped' | 'delivered' | 'cancelled'` per the schema
comment), total, shippingAddress (jsonb), shippingCost, trackingNumber,
timestamps (abstract ticks). -/
structure Order where
  id : Nat
  userId : Nat
  status : String
  total : ℚ
  shippingAddress : ShippingAddress
  shippingCost : Option ℚ
  trackingNumber : Option String
  createdAt : Nat
  updatedAt : Nat
deriving DecidableEq, Repr

/-- `InsertOrder` (`insertOrderSchema`): an `Order` minus the generated
`id`/`createdAt`/`updatedAt`. -/
structure InsertOrder where
  userId : Nat
  status : String
  total : ℚ
  shippingAddress : ShippingAddress
  shippingCost : Option ℚ
  trackingNumber : Option String
deriving DecidableEq, Repr

/-- `OrderItem` row (`order_items` table): price is the price at time of
purchase. -/
structure OrderItem where
  id : Nat
  orderId : Nat
  productId : Nat
  quantity : Nat
  price : ℚ
deriving DecidableEq, Repr

/-- `InsertOrderItem`: an `OrderItem` minus the generated `id`. -/
structure InsertOrderItem where
  orderId : Nat
  productId : Nat
  quantity : Nat
  price : ℚ
deriving DecidableEq, Repr

/-- JS `Map` keyed by numeric id, embedded as an association list.
`Map.set` replaces the entry when the key is present, else appends. -/
def mapSet {α : Type} (m : List (Nat × α)) (k : Nat) (v : α) : List (Nat × α) :=
  match m with
  | [] => [(k, v)]
  | (k', v') :: rest =>
    if k' = k then (k, v) :: rest else (k', v') :: mapSet rest k v

/-- JS `Map.get`. -/
def mapGet {α : Type} (m : List (Nat × α)) (k : Nat) : Option α :=
  match m with
  | [] => none
  | (k', v') :: rest => if k' = k then some v' else mapGet rest k

/-- The order-related slice of `MemStorage` (`part_001:43-78`): the `orders`
and `orderItems` maps and their `currentIds` counters. -/
structure MemStore where
  orders : List (Nat × Order)
  orderItems : List (Nat × OrderItem)
  currentOrderId : Nat
  currentOrderItemId : Nat
deriving DecidableEq, Repr

/-- The empty `MemStorage` (constructor, `part_001:61-78`): empty maps,
counters at 1. -/
def MemStore.init : MemStore :=
  { orders := [], orderItems := [], currentOrderId := 1, currentOrderItemId := 1 }

/-- `MemStorage.createOrder` (`part_001:210-221`): take the next id, stamp
`createdAt`/`updatedAt` with `now`, store, return the new order. The write
commits to the map immediately; there is no surrounding transaction. -/
def MemStore.createOrder (s : MemStore) (order : InsertOrder) (now : Nat) :
    MemStore × Order :=
  let id := s.currentOrderId
  let newOrder : Order :=
    { id := id
      userId := order.userId
      status := order.status
      total := order.total
      shippingAddress := order.shippingAddress
      shippingCost := order.shippingCost
      trackingNumber := order.trackingNumber
      createdAt := now
      updatedAt := now }
  ({ s with orders := mapSet s.orders id newOrder, currentOrderId := id + 1 },
   newOrder)

/-- `MemStorage.createOrderItem` (`part_001:243-251`): take the next id,
store, return. Again an immediate, independent write. -/
def MemStore.createOrderItem (s : MemStore) (orderItem : InsertOrderItem) :
    MemStore × OrderItem :=
  let id := s.currentOrderItemId
  let newOrderItem : OrderItem :=
    { id := id
      orderId := orderItem.orderId
      productId := orderItem.productId
      quantity := orderItem.quantity
      price := orderItem.price }
  ({ s with orderItems := mapSet s.orderItems id newOrderItem,
            currentOrderItemId := id + 1 },
   newOrderItem)

/-- `MemStorage.updateOrderStatus` (`part_001:223-235`): look the order up;
a missing id throws `'Order not found'`; otherwise the stored order is
replaced by a copy with `status` set to the requested string (any string —
the source performs no state-machine check) and `updatedAt` refreshed. -/
def MemStore.updateOrderStatus (s : MemStore) (id : Nat) (status : String)
    (now : Nat) : Except String (MemStore × Order) :=
  match mapGet s.orders id with
  | none => .error "Order not found"
  | some order =>
    let updatedOrder : Order := { order with status := status, updatedAt := now }
    .ok ({ s with orders := mapSet s.orders id updatedOrder }, updatedOrder)

/-- `MemStorage.getOrderItems` (`part_001:237-241`): the stored items whose
`orderId` matches, in map order. -/
def MemStore.getOrderItems (s : MemStore) (orderId : Nat) : List OrderItem :=
  (s.orderItems.map (·.2)).filter (fun item => item.orderId = orderId)

/-- Modelled from the spec: `finalizeOrder` (§4.5) — the repository has no
finalize driver under `src/`; only the storage primitives exist. Per the
spec the driver creates the Order row and then one OrderItem row per cart
line, each through the storage operations above, which commit
independently. `failAt` injects a fault: item write `k` (0-based) throws
before persisting anything of its own, aborting the remaining writes with
no rollback of the writes already committed — matching both storage
implementations, where every `create*` call is an individually committed
write with no enclosing transaction. Returns the resulting store and
whether the attempt completed. -/
def finalizeWriteItems (orderId : Nat) (failAt : Option Nat) (st : MemStore)
    (rest : List InsertOrderItem) (k : Nat) : MemStore × Bool :=
  match rest with
  | [] => (st, true)
  | item :: more =>
    if failAt = some k then (st, false)
    else
      let (st', _) := st.createOrderItem { item with orderId := orderId }
      finalizeWriteItems orderId failAt st' more (k + 1)

/-- Modelled from the spec: the finalize driver itself — create the Order
row, then the per-line OrderItem writes via `finalizeWriteItems`. -/
def finalizeAttempt (s : MemStore) (order : InsertOrder)
    (items : List InsertOrderItem) (now : Nat) (failAt : Option Nat) :
    MemStore × Bool :=
  let (s1, newOrder) := s.createOrder order now
  finalizeWriteItems newOrder.id failAt s1 items 0

/-! ## Module initialisation and required secrets
(`src/server/services/shipping.ts:5-14`, `src/server/routes.ts:180-186`) -/

/-- The environment variables the server modules read at load time.
`none` models an unset variable; the empty string is also falsy in the
`!process.env.X` checks. -/
structure Env where
  easypostApiKey : Option String
  googleMapsApiKey : Option String
  stripeSecretKey : Option String
deriving DecidableEq, Repr

/-- JS truthiness test `!x` for an optional string: `undefined` and `""`
are falsy. -/
def envMissing (v : Option String) : Bool :=
  match v with
  | none => true
  | some s => s = ""

/-- Module init of `src/server/services/shipping.ts:5-14`: throws when
`EASYPOST_API_KEY` is falsy; then constructs the geocoder passing
`GOOGLE_MAPS_API_KEY` through unchecked. -/
def shippingModuleInit (env : Env) : Except String Unit :=
  if envMissing env.easypostApiKey then
    .error "Missing required EasyPost API key"
  else
    .ok ()

/-- Module init of `src/server/routes.ts:180-186`: throws when
`STRIPE_SECRET_KEY` is falsy. -/
def routesModuleInit (env : Env) : Except String Unit :=
  if envMissing env.stripeSecretKey then
    .error "Missing required Stripe secret: STRIPE_SECRET_KEY"
  else
    .ok ()

/-- Server startup as far as required-secret checks go: importing
`routes.ts` first runs `shipping.ts`'s module body (it is imported), then
`routes.ts`'s own top-level check. Startup succeeds iff neither throws. -/
def appStartup (env : Env) : Except String Unit := do
  shippingModuleInit env
  routesModuleInit env

/-! ## Storage well-formedness -/

/-- Well-formedness of the `orderItems` map: every stored key is below the
`currentIds.orderItems` counter. This holds of every store reachable from
the `MemStorage` constructor state, where ids are handed out by the
counter, and makes a fresh `Map.set` an append. -/
def itemIdsFresh (s : MemStore) : Prop :=
  ∀ p ∈ s.orderItems, p.1 < s.currentOrderItemId

/-! ## Concrete fixtures (the spec's §8 end-to-end scenario data) -/

/-- The §8 scenario destination address. -/
def addrEx : ShippingAddress :=
  { firstName := "A", lastName := "B", address1 := "1 Main St", address2 := none
    city := "Napa", state := "CA", postalCode := "94559", country := "US"
    phone := "7075551234" }

/-- A carrier-verified record for `addrEx`. -/
def verifiedEx : VerifiedRecord :=
  { street1 := "1 MAIN ST", street2 := none, city := "Napa", state := "CA"
    zip := "94559-1234", country := "US", phone := "7075551234"
    deliveryDetails := some [] }

/-- An oracle in which the geocode call throws. -/
def oracleGeoErrEx : AddressOracle :=
  { geocode := .error "network down", verify := .ok verifiedEx }

/-- The §8 scenario quote: USPS Priority at 7.25, 3 days. -/
def rateUSPS : ShippingRate :=
  { carrier := "USPS", service := "Priority", rate := 7.25, estimatedDays := 3
    trackingAvailable := true }

/-- A cart with subtotal 50.00. -/
def cartEx : List CartItem := [{ productId := 1, quantity := 2, price := 25 }]

/-- Checkout state of the §8 scenario: subtotal 50.00, USPS quote selected. -/
def checkoutEx : CheckoutState :=
  { items := cartEx, total := 50, selectedRate := some rateUSPS }

/-- A Stripe oracle that always succeeds. -/
def stripeOk : ℤ → Except String String := fun _ => .ok "pi_123_secret_456"

/-- A stored order that has already been shipped. -/
def orderShippedEx : Order :=
  { id := 1, userId := 1, status := "shipped", total := 57.25
    shippingAddress := addrEx, shippingCost := some 7.25, trackingNumber := none
    createdAt := 0, updatedAt := 0 }

/-- A store holding exactly `orderShippedEx`. -/
def storeShippedEx : MemStore :=
  { orders := [(1, orderShippedEx)], orderItems := []
    currentOrderId := 2, currentOrderItemId := 1 }

/-- The §8 scenario order to finalize: total 57.25 = 50.00 + 7.25. -/
def insertOrderEx : InsertOrder :=
  { userId := 1, status := "paid", total := 57.25, shippingAddress := addrEx
    shippingCost := some 7.25, trackingNumber := none }

/-- Three line-item writes for a finalize attempt. -/
def itemsEx : List InsertOrderItem :=
  [ { orderId := 0, productId := 11, quantity := 1, price := 10 }
  , { orderId := 0, productId := 12, quantity := 2, price := 15 }
  , { orderId := 0, productId := 13, quantity := 1, price := 10 } ]

/-- An environment with the EasyPost and Stripe keys set but no
GOOGLE_MAPS_API_KEY. -/
def envNoGeoEx : Env :=
  { easypostApiKey := some "EZAK_test", googleMapsApiKey := none
    stripeSecretKey := some "sk_test" }

/-- An environment with all three keys set. -/
def envOkEx : Env :=
  { easypostApiKey := some "EZAK_test", googleMapsApiKey := some "AIza_test"
    stripeSecretKey := some "sk_test" }

/-! ## Helper lemmas -/

/-- The JS `delivery_days || 0` default agrees with `Option.getD 0`. -/
theorem jsOrNat_getD (a : Option Nat) : jsOrNat a = a.getD 0 := by
  cases a with
  | none => rfl
  | some n => unfold jsOrNat; split <;> simp_all

/-- The JS `a || b` string fallback never yields `""` when `b ≠ ""`. -/
theorem jsOrStr_ne_empty (a b : String) (hb : b ≠ "") : jsOrStr a b ≠ "" := by
  unfold jsOrStr
  split
  · exact hb
  · assumption

/-- Evaluation rule for round-to-nearest-even when the fractional part is
below one half: the result is the floor. -/
theorem roundHalfEven_eq_floor (q : ℚ) (f : ℤ) (hf : ⌊q⌋ = f)
    (hlt : q - f < 1/2) : roundHalfEven q = f := by
  simp only [roundHalfEven, hf]
  rw [if_pos hlt]

/-- Evaluation rule for `fl` on a positive rational with known binade
exponent and known significand rounding. -/
theorem fl_eq_of_log (q : ℚ) (e n : ℤ) (hq : 0 < q) (he : Int.log 2 q = e)
    (hn : roundHalfEven (q * 2 ^ ((52 : ℤ) - e)) = n) :
    fl q = n / 2 ^ ((52 : ℤ) - e) := by
  unfold fl flPos
  rw [if_neg (ne_of_gt hq), if_pos hq, he, hn]

/-- The binary64 value of the literal `1.005`: 4526117625507348·2⁻⁵²,
which is 1.00499999999999989…, just below 1.005. -/
theorem fl_1005 :
    fl (1005/1000 : ℚ) = 4526117625507348 / 2 ^ ((52 : ℤ) - 0) := by
  have hf : ⌊(1005/1000 : ℚ)⌋₊ = 1 := by rw [Nat.floor_eq_iff] <;> norm_num
  have he : Int.log 2 (1005/1000 : ℚ) = 0 := by
    rw [Int.log_of_one_le_right _ (by norm_num), hf]
    norm_num
  refine fl_eq_of_log _ 0 _ (by norm_num) he ?_
  exact roundHalfEven_eq_floor _ _ (by rw [Int.floor_eq_iff] <;> norm_num)
    (by norm_num)

/-- Binary64 evaluation of `1.005 * 100`: the product of the double
`1.005` with 100 rounds to 7072058789855231·2⁻⁴⁶ = 100.49999999999998…,
strictly below 100.5. -/
theorem fl_1005_times_100 :
    fl (fl (1005/1000 : ℚ) * 100) = 7072058789855231 / 2 ^ ((52 : ℤ) - 6) := by
  rw [fl_1005]
  have hq : (4526117625507348 / 2 ^ ((52 : ℤ) - 0) * 100 : ℚ) =
      452611762550734800 / 2 ^ 52 := by norm_num
  rw [hq]
  have hlog100 : Nat.log 2 100 = 6 :=
    Nat.log_eq_of_pow_le_of_lt_pow (by norm_num) (by norm_num)
  have hf : ⌊(452611762550734800 / 2 ^ 52 : ℚ)⌋₊ = 100 := by
    rw [Nat.floor_eq_iff] <;> norm_num
  have he : Int.log 2 (452611762550734800 / 2 ^ 52 : ℚ) = 6 := by
    rw [Int.log_of_one_le_right _ (by norm_num), hf]
    norm_num [hlog100]
  refine fl_eq_of_log _ 6 _ (by norm_num) he ?_
  exact roundHalfEven_eq_floor _ _ (by rw [Int.floor_eq_iff] <;> norm_num)
    (by norm_num)

/-- 5000 is exactly representable as a binary64, so `fl` fixes it. -/
theorem fl_5000 : fl (5000 : ℚ) = 5000 := by
  have hlog : Nat.log 2 5000 = 12 :=
    Nat.log_eq_of_pow_le_of_lt_pow (by norm_num) (by norm_num)
  have he : Int.log 2 (5000 : ℚ) = 12 := by
    rw [Int.log_of_one_le_right _ (by norm_num)]
    norm_num [hlog]
  have h := fl_eq_of_log (5000 : ℚ) 12 5497558138880000 (by norm_num) he
    (roundHalfEven_eq_floor _ _ (by rw [Int.floor_eq_iff] <;> norm_num)
      (by norm_num))
  rw [h]
  norm_num

/-! ## C7 — order total -/

/-- C7: the checkout order-summary total is the cart subtotal plus the
selected rate's price when a rate is selected, and the subtotal alone when
none is selected; in particular `computeTotal 50 (some rateUSPS) = 57.25`
and `computeTotal 50 none = 50`. -/
theorem computeTotal_adds_selected_rate (s : ℚ) (q : ShippingRate) :
    computeTotal s (some q) = s + q.rate ∧
    computeTotal s none = s ∧
    computeTotal 50 (some rateUSPS) = 57.25 ∧
    computeTotal 50 none = 50 := by
  refine ⟨?_, ?_, ?_, ?_⟩
  · by_cases h : q.rate = 0 <;> simp [computeTotal, jsOrZero, h]
  · simp [computeTotal]
  · norm_num [computeTotal, jsOrZero, rateUSPS]
  · norm_num [computeTotal]

/-! ## C5 — geocode miss short-circuits -/

/-- C5: for every address whose geocoding yields zero candidates,
`validateAddress` returns `isValid := false` with the message
"Address could not be found", and the carrier-verification step is not
invoked at all. -/
theorem validateAddress_geocode_miss (address : ShippingAddress)
    (verify : Except String VerifiedRecord) :
    (validateAddress address ⟨.ok [], verify⟩).isValid = false ∧
    (validateAddress address ⟨.ok [], verify⟩).messages =
      ["Address could not be found"] ∧
    carrierVerifyInvoked ⟨.ok [], verify⟩ = false :=
  ⟨rfl, rfl, rfl⟩

/-! ## C10 — input address echoed unchanged -/

/-- C10: in every branch — geocode miss, successful verification, or
caught exception — the returned `ValidatedAddress` echoes the input
address unchanged at top level (all nine ShippingAddress fields);
carrier corrections appear only in the separate `normalizedAddress`. -/
theorem validateAddress_preserves_input (address : ShippingAddress)
    (ext : AddressOracle) :
    (validateAddress address ext).base = address := by
  obtain ⟨g, v⟩ := ext
  cases g with
  | error e => rfl
  | ok l =>
    cases v with
    | error e => by_cases hl : l.length = 0 <;> simp [validateAddress, hl]
    | ok vr => by_cases hl : l.length = 0 <;> simp [validateAddress, hl]

/-! ## C8 — rate mapping -/

/-- C8: on a successful aggregator response, `getShippingRates` returns one
quote per returned rate option, in the aggregator's order; each quote
copies the option's carrier and service, takes the option's decimal price
as `rate`, uses the option's delivery days (0 when omitted) as
`estimatedDays`, and has `trackingAvailable = true` in every element. -/
theorem getShippingRates_success_mapping (fromAddress toAddress : ShippingAddress)
    (parcel : ParcelDetails) (opts : List RateOption) :
    ∃ quotes,
      getShippingRates fromAddress toAddress parcel (.ok opts) = .ok quotes ∧
      quotes.length = opts.length ∧
      (∀ i, (quotes.get? i).map (fun q => q.carrier) =
        (opts.get? i).map (fun o => o.carrier)) ∧
      (∀ i, (quotes.get? i).map (fun q => q.service) =
        (opts.get? i).map (fun o => o.service)) ∧
      (∀ i, (quotes.get? i).map (fun q => q.rate) =
        (opts.get? i).map (fun o => o.rate)) ∧
      (∀ i, (quotes.get? i).map (fun q => q.estimatedDays) =
        (opts.get? i).map (fun o => o.delivery_days.getD 0)) ∧
      (∀ i, (quotes.get? i).map (fun q => q.trackingAvailable) =
        (opts.get? i).map (fun _ => true)) := by
  refine ⟨_, rfl, by simp [getShippingRates], ?_, ?_, ?_, ?_, ?_⟩ <;>
    intro i <;>
    cases h : opts[i]? <;>
    simp [getShippingRates, List.get?_eq_getElem?, List.getElem?_map, h,
      jsOrNat_getD]

/-! ## C6 — totality and failure reporting of validateAddress -/

/-- C6: `validateAddress` is total at its interface — for every input
address and every outcome of the two external calls, including thrown
exceptions, it returns a `ValidatedAddress` (it is a total function of the
oracle; no exception escapes). It reports `isValid := true` exactly when
geocoding produced at least one candidate and carrier verification
succeeded, and every failure outcome carries a non-empty message list
whose entries are non-empty descriptive strings. -/
theorem validateAddress_total_failures (address : ShippingAddress)
    (ext : AddressOracle) :
    ((validateAddress address ext).isValid = true ↔
      (∃ l, ext.geocode = .ok l ∧ l ≠ []) ∧ ∃ v, ext.verify = .ok v) ∧
    ((validateAddress address ext).isValid = false →
      (validateAddress address ext).messages ≠ [] ∧
      ∀ m ∈ (validateAddress address ext).messages, m ≠ "") := by
  obtain ⟨g, v⟩ := ext
  cases g with
  | error e =>
    refine ⟨by simp [validateAddress], fun _ => ⟨by simp [validateAddress], ?_⟩⟩
    intro m hm
    simp [validateAddress] at hm
    subst hm
    exact jsOrStr_ne_empty e "Address validation failed" (by decide)
  | ok l =>
    by_cases hl : l.length = 0
    · have hnil : l = [] := List.length_eq_zero.mp hl
      subst hnil
      refine ⟨by simp [validateAddress], fun _ => ⟨by simp [validateAddress], ?_⟩⟩
      intro m hm
      simp [validateAddress] at hm
      subst hm
      decide
    · have hne : l ≠ [] := fun h => hl (by simp [h])
      cases v with
      | error e =>
        refine ⟨by simp [validateAddress, hl], fun _ => ⟨by simp [validateAddress, hl], ?_⟩⟩
        intro m hm
        simp [validateAddress, hl] at hm
        subst hm
        exact jsOrStr_ne_empty e "Address validation failed" (by decide)
      | ok vr =>
        refine ⟨by simp [validateAddress, hl, hne], fun hfalse => ?_⟩
        simp [validateAddress, hl] at hfalse

/-- C6 witness: on the oracle whose geocode call throws, the reported
failure carries a non-empty message list. -/
theorem validateAddress_total_failures_witness :
    (validateAddress addrEx oracleGeoErrEx).messages ≠ [] :=
  ((validateAddress_total_failures addrEx oracleGeoErrEx).2 rfl).1

/-! ## C4 — payment-intent amount handling -/

/-- C4 (code bug): the route converts major to minor units with
`Math.round(amount * 100)` computed in binary64 arithmetic. The JSON
number 1.005 parses to the binary64 value 4526117625507348·2⁻⁵² (just
below 1.005); its product with 100 rounds to 7072058789855231·2⁻⁴⁶ =
100.49999999999998…, and `Math.round` yields 100 — so the intent is
submitted for 100 cents, not the 101 cents that exact round-to-nearest
conversion (the spec and claim) requires. The amount ≤ 0 rejection path
behaves as claimed. -/
theorem createPaymentIntent_rounding_bug :
    (createPaymentIntentRoute (fl (1005/1000)) stripeOk).2 = some 100 ∧
    jsRound ((1005/1000 : ℚ) * 100) = 101 ∧
    (100 : ℤ) ≠ 101 ∧
    createPaymentIntentRoute (-5) stripeOk = (.invalidAmount, none) := by
  have hpos : ¬(fl (1005/1000 : ℚ) = 0 ∨ fl (1005/1000 : ℚ) ≤ 0) := by
    rw [fl_1005]
    norm_num
  have hcents : jsRound (fl (fl (1005/1000 : ℚ) * 100)) = 100 := by
    rw [fl_1005_times_100]
    unfold jsRound
    rw [Int.floor_eq_iff] <;> norm_num
  refine ⟨?_, ?_, by decide, by norm_num [createPaymentIntentRoute]⟩
  · simp only [createPaymentIntentRoute, if_neg hpos, hcents, stripeOk]
  · unfold jsRound
    rw [Int.floor_eq_iff] <;> norm_num

/-! ## C1 — payment intent ignores the selected shipping rate -/

/-- C1: contrary to the claim, the checkout page's payment-intent effect
posts `{ amount: total }` — the cart subtotal alone — and its dependency
array is `[total, items]`, so with subtotal 50.00 and selected rate 7.25
the intent is created for 5000 cents while the page's own pay button shows
the `computeTotal` amount 57.25 (5725 cents); the posted amount is
invariant under every change of the selected rate, so no new intent is
created for the recomputed total when the rate changes. -/
theorem checkoutIntent_ignores_selected_rate :
    checkoutIntentSubmittedCents checkoutEx stripeOk = some 5000 ∧
    computeTotal checkoutEx.total checkoutEx.selectedRate = 57.25 ∧
    jsRound (computeTotal checkoutEx.total checkoutEx.selectedRate * 100) = 5725 ∧
    (∀ (s : CheckoutState) (r : Option ShippingRate),
      checkoutIntentEffectAmount { s with selectedRate := r } =
        checkoutIntentEffectAmount s) ∧
    (5000 : ℤ) ≠ 5725 := by
  have htot : computeTotal checkoutEx.total checkoutEx.selectedRate = 57.25 := by
    norm_num [computeTotal, checkoutEx, rateUSPS, jsOrZero]
  refine ⟨?_, htot, ?_, fun s r => rfl, by decide⟩
  · have h1 : ¬((50 : ℚ) = 0 ∨ (50 : ℚ) ≤ 0) := by norm_num
    have h2 : jsRound (fl (5000 : ℚ)) = 5000 := by
      rw [fl_5000]
      unfold jsRound
      rw [Int.floor_eq_iff] <;> norm_num
    simp [checkoutIntentSubmittedCents, checkoutIntentEffectAmount, checkoutEx,
      cartEx, createPaymentIntentRoute, h1, h2, stripeOk]
    norm_num [h2]
  · rw [htot]
    unfold jsRound
    norm_num

/-! ## C2 — order status transitions -/

/-- C2 counterexample: `updateOrderStatus` accepts the transition
shipped → cancelled. On a store holding order 1 with status "shipped",
requesting "cancelled" succeeds and overwrites the stored status instead
of rejecting the request as an InvalidTransition error and leaving the
order unchanged. -/
theorem updateOrderStatus_accepts_shipped_cancelled :
    MemStore.updateOrderStatus storeShippedEx 1 "cancelled" 5 =
      .ok ({ storeShippedEx with
               orders := [(1, { orderShippedEx with
                                  status := "cancelled", updatedAt := 5 })] },
           { orderShippedEx with status := "cancelled", updatedAt := 5 }) := rfl

/-- C2 (amended): `updateOrderStatus` performs no state-machine
validation. For every stored order and every requested status string the
update is accepted: the stored order's status is set to the requested
value and its `updatedAt` refreshed; the only rejected input is an id with
no stored order, which fails with "Order not found". -/
theorem updateOrderStatus_unconditional (s : MemStore) (id : Nat)
    (status : String) (now : Nat) :
    (∀ o, mapGet s.orders id = some o →
      s.updateOrderStatus id status now =
        .ok ({ s with orders :=
                 mapSet s.orders id { o with status := status, updatedAt := now } },
             { o with status := status, updatedAt := now })) ∧
    (mapGet s.orders id = none →
      s.updateOrderStatus id status now = .error "Order not found") := by
  constructor
  · intro o ho
    simp [MemStore.updateOrderStatus, ho]
  · intro ho
    simp [MemStore.updateOrderStatus, ho]

/-- C2 witness: on the empty store the update of a missing order id 7
fails with "Order not found". -/
theorem updateOrderStatus_unconditional_witness :
    MemStore.updateOrderStatus MemStore.init 7 "paid" 3 =
      .error "Order not found" :=
  (updateOrderStatus_unconditional MemStore.init 7 "paid" 3).2 rfl

/-! ## C9 — required configuration secrets -/

/-- C9 counterexample: with the EasyPost and Stripe keys present but
GOOGLE_MAPS_API_KEY absent from the environment, module initialisation
succeeds — the geocoding key is passed to the geocoder unchecked, so its
absence does not prevent the application from starting. -/
theorem appStartup_missing_geocode_key :
    appStartup envNoGeoEx = .ok () := rfl

/-- C9 (amended): startup fails fast iff the carrier-aggregator key
(EASYPOST_API_KEY) or the payment-processor key (STRIPE_SECRET_KEY) is
missing or empty; the geocoding key (GOOGLE_MAPS_API_KEY) is never
checked, and changing it never affects startup. -/
theorem appStartup_checks_two_keys (env : Env) :
    (appStartup env = .ok () ↔
      envMissing env.easypostApiKey = false ∧
      envMissing env.stripeSecretKey = false) ∧
    (∀ g, appStartup { env with googleMapsApiKey := g } = appStartup env) := by
  constructor
  · unfold appStartup shippingModuleInit routesModuleInit
    cases he : envMissing env.easypostApiKey <;>
      cases hs : envMissing env.stripeSecretKey <;>
      simp [he, hs, Bind.bind, Except.bind]
  · intro g
    rfl

/-- C9 witness: on the fully configured environment, removing only the
geocoding key leaves startup behaviour unchanged. -/
theorem appStartup_checks_two_keys_witness :
    appStartup { envOkEx with googleMapsApiKey := none } = appStartup envOkEx :=
  (appStartup_checks_two_keys envOkEx).2 none

/-! ## C3 — finalization is not all-or-nothing -/

/-- Looking a key up right after `Map.set` yields the stored value. -/
theorem mapGet_mapSet_self {α : Type} (m : List (Nat × α)) (k : Nat) (v : α) :
    mapGet (mapSet m k v) k = some v := by
  induction m with
  | nil => simp [mapSet, mapGet]
  | cons p rest ih =>
    obtain ⟨k', v'⟩ := p
    by_cases h : k' = k <;> simp [mapSet, mapGet, h, ih]

/-- `Map.set` with a key absent from the map appends: the size grows by
one. -/
theorem mapSet_length_fresh {α : Type} (m : List (Nat × α)) (k : Nat) (v : α)
    (h : ∀ p ∈ m, p.1 ≠ k) : (mapSet m k v).length = m.length + 1 := by
  induction m with
  | nil => rfl
  | cons p rest ih =>
    obtain ⟨k', v'⟩ := p
    have hk : k' ≠ k := h (k', v') (by simp)
    simp [mapSet, hk, ih (fun q hq => h q (by simp [hq]))]

/-- Every entry of `Map.set m k v` is an entry of `m` or the pair `(k, v)`. -/
theorem mem_mapSet {α : Type} {m : List (Nat × α)} {k : Nat} {v : α}
    {p : Nat × α} (hp : p ∈ mapSet m k v) : p ∈ m ∨ p = (k, v) := by
  induction m with
  | nil =>
    right
    simpa [mapSet] using hp
  | cons q rest ih =>
    obtain ⟨k', v'⟩ := q
    by_cases h : k' = k
    · simp only [mapSet, if_pos h, List.mem_cons] at hp
      rcases hp with h1 | h1
      · right; exact h1
      · left; exact List.mem_cons_of_mem _ h1
    · simp only [mapSet, if_neg h, List.mem_cons] at hp
      rcases hp with h1 | h1
      · left; simp [h1]
      · rcases ih h1 with h2 | h2
        · left; exact List.mem_cons_of_mem _ h2
        · right; exact h2

/-- `createOrderItem` leaves the orders map and the order counter alone,
grows the item map by exactly one entry (the counter key is fresh), and
preserves freshness of the item counter. -/
theorem createOrderItem_effects (s : MemStore) (it : InsertOrderItem)
    (h : itemIdsFresh s) :
    (s.createOrderItem it).1.orders = s.orders ∧
    (s.createOrderItem it).1.currentOrderId = s.currentOrderId ∧
    (s.createOrderItem it).1.orderItems.length = s.orderItems.length + 1 ∧
    itemIdsFresh (s.createOrderItem it).1 := by
  refine ⟨rfl, rfl, ?_, ?_⟩
  · exact mapSet_length_fresh _ _ _ (fun p hp => Nat.ne_of_lt (h p hp))
  · intro p hp
    rcases mem_mapSet hp with h1 | h1
    · exact Nat.lt_succ_of_lt (h p h1)
    · simp [MemStore.createOrderItem, h1]

/-- The item-write loop never touches the orders map or the order
counter. -/
theorem finalizeWriteItems_frame (oid : Nat) (f : Option Nat) :
    ∀ (rest : List InsertOrderItem) (st : MemStore) (j : Nat),
      (finalizeWriteItems oid f st rest j).1.orders = st.orders ∧
      (finalizeWriteItems oid f st rest j).1.currentOrderId =
        st.currentOrderId := by
  intro rest
  induction rest with
  | nil => intro st j; exact ⟨rfl, rfl⟩
  | cons item more ih =>
    intro st j
    by_cases h : f = some j
    · simp [finalizeWriteItems, h]
    · simp only [finalizeWriteItems, if_neg h]
      exact ih (st.createOrderItem { item with orderId := oid }).1 (j + 1)

/-- The item-write loop under a fault at absolute index `k`: starting at
index `j ≤ k` with the fault inside the remaining list, it writes exactly
the `k - j` items before the fault and reports failure. -/
theorem finalizeWriteItems_fault (oid k : Nat) :
    ∀ (rest : List InsertOrderItem) (st : MemStore) (j : Nat),
      itemIdsFresh st → j ≤ k → k - j < rest.length →
      (finalizeWriteItems oid (some k) st rest j).1.orderItems.length =
        st.orderItems.length + (k - j) ∧
      (finalizeWriteItems oid (some k) st rest j).2 = false := by
  intro rest
  induction rest with
  | nil =>
    intro st j _ _ hlen
    simp at hlen
  | cons item more ih =>
    intro st j hfresh hjk hlen
    by_cases h : j = k
    · subst h
      simp [finalizeWriteItems, Nat.sub_self]
    · have hjk' : j < k := lt_of_le_of_ne hjk h
      have hcond : ¬((some k : Option Nat) = some j) := by
        simp [Ne.symm h]
      simp only [finalizeWriteItems, if_neg hcond]
      obtain ⟨-, -, hlen1, hfresh1⟩ :=
        createOrderItem_effects st { item with orderId := oid } hfresh
      obtain ⟨hlen2, hfail⟩ :=
        ih (st.createOrderItem { item with orderId := oid }).1 (j + 1) hfresh1
          hjk' (by simp at hlen; omega)
      refine ⟨?_, hfail⟩
      rw [hlen2, hlen1]
      omega

/-- C3 counterexample: starting from the empty in-memory store, a finalize
attempt for the §8 order with three line items whose second item write
fails leaves one Order row and one OrderItem row persisted — not the zero
rows the all-or-nothing claim requires. -/
theorem finalizeAttempt_fault_leaves_rows :
    (finalizeAttempt MemStore.init insertOrderEx itemsEx 7 (some 1)).1.orders.length
        = 1 ∧
    (finalizeAttempt MemStore.init insertOrderEx itemsEx 7 (some 1)).1.orderItems.length
        = 1 ∧
    (finalizeAttempt MemStore.init insertOrderEx itemsEx 7 (some 1)).2 = false :=
  ⟨rfl, rfl, rfl⟩

/-- C3 (amended): order finalization through the storage operations is not
all-or-nothing — each write commits independently, with no rollback. For
every well-formed starting store, if OrderItem write `k` (0-based) of the
attempt fails, the attempt reports failure, yet the Order row remains
persisted under the id the attempt allocated and exactly the `k` item
writes that preceded the fault remain persisted. -/
theorem finalizeAttempt_fault_persists_order (s : MemStore)
    (order : InsertOrder) (items : List InsertOrderItem) (now k : Nat)
    (hfresh : itemIdsFresh s) (hk : k < items.length) :
    (finalizeAttempt s order items now (some k)).2 = false ∧
    mapGet (finalizeAttempt s order items now (some k)).1.orders
        s.currentOrderId =
      some { id := s.currentOrderId, userId := order.userId
             status := order.status, total := order.total
             shippingAddress := order.shippingAddress
             shippingCost := order.shippingCost
             trackingNumber := order.trackingNumber
             createdAt := now, updatedAt := now } ∧
    (finalizeAttempt s order items now (some k)).1.orderItems.length =
      s.orderItems.length + k := by
  have hfault := finalizeWriteItems_fault s.currentOrderId k items
    (s.createOrder order now).1 0 hfresh (Nat.zero_le k)
    (by simpa using hk)
  have hframe := finalizeWriteItems_frame s.currentOrderId (some k) items
    (s.createOrder order now).1 0
  refine ⟨hfault.2, ?_, by simpa using hfault.1⟩
  have horders :
      (finalizeAttempt s order items now (some k)).1.orders =
        mapSet s.orders s.currentOrderId
          { id := s.currentOrderId, userId := order.userId
            status := order.status, total := order.total
            shippingAddress := order.shippingAddress
            shippingCost := order.shippingCost
            trackingNumber := order.trackingNumber
            createdAt := now, updatedAt := now } := hframe.1
  rw [horders, mapGet_mapSet_self]

/-- C3 witness: on the empty store with the §8 order, three items and the
second write faulting, the attempt fails, the order persists under id 1,
and exactly one item row is stored. -/
theorem finalizeAttempt_fault_persists_order_witness :
    (finalizeAttempt MemStore.init insertOrderEx itemsEx 7 (some 1)).2 = false ∧
    mapGet (finalizeAttempt MemStore.init insertOrderEx itemsEx 7 (some 1)).1.orders
        MemStore.init.currentOrderId =
      some { id := MemStore.init.currentOrderId, userId := insertOrderEx.userId
             status := insertOrderEx.status, total := insertOrderEx.total
             shippingAddress := insertOrderEx.shippingAddress
             shippingCost := insertOrderEx.shippingCost
             trackingNumber := insertOrderEx.trackingNumber
             createdAt := 7, updatedAt := 7 } ∧
    (finalizeAttempt MemStore.init insertOrderEx itemsEx 7 (some 1)).1.orderItems.length =
      MemStore.init.orderItems.length + 1 :=
  finalizeAttempt_fault_persists_order MemStore.init insertOrderEx itemsEx 7 1
    (fun p hp => by simp [MemStore.init] at hp)
    (by norm_num [itemsEx])

end JWN
